import Mathlib

/-!
Shallow embedding of the solana-ctf-vault program (programs/vault-pda) and
proofs about its deposit, redeem and transfer_ownership instructions.

Machine integers are modelled as Nat with explicit bounds: u64 values are
Nats below U64LIM, u128 intermediates are Nats below U128LIM, and the
narrowing cast written as u64 in the source is reduction modulo U64LIM.
Fallible operations return Except.
-/

def U64LIM : Nat := 18446744073709551616

def U128LIM : Nat := 340282366920938463463374607431768211456

/-- Narrowing cast from a wide integer to u64, as the Rust expression x as u64:
the value is truncated to its low 64 bits. -/
def toU64 (x : Nat) : Nat := x % U64LIM

/-- Embedding of u128 checked_mul: some product when it fits in 128 bits, none
on overflow. -/
def checkedMul128 (a b : Nat) : Option Nat :=
  if a * b < U128LIM then some (a * b) else none

/-- Embedding of u128 checked_div: none exactly when the divisor is zero. -/
def checkedDiv128 (a b : Nat) : Option Nat :=
  if b = 0 then none else some (a / b)

/-- Account addresses (Pubkey) are abstract identifiers. -/
abbrev Pubkey := Nat

/-- Embedding of an SPL token mint account: its address, current supply and
decimal precision. -/
structure Mint where
  key : Pubkey
  supply : Nat
  decimals : Nat
deriving Repr, DecidableEq

/-- Embedding of an SPL token account: its address, the mint it holds, its
authority and its balance. -/
structure TokenAccount where
  key : Pubkey
  mint : Pubkey
  owner : Pubkey
  amount : Nat
deriving Repr, DecidableEq

/-- Embedding of state/vault.rs: the Vault record storing the share mint, the
underlying mint, the custody token account and the PDA bump. -/
structure Vault where
  share_mint : Pubkey
  underlying_mint : Pubkey
  vault_token_account : Pubkey
  bump : Nat
deriving Repr, DecidableEq

/-- Embedding of state/protocol_state.rs: the protocol owner record. -/
structure ProtocolState where
  owner : Pubkey
  bump : Nat
deriving Repr, DecidableEq

/-- Embedding of an Anchor UncheckedAccount: an address together with whether
the containing transaction was signed by that address. No constraint on it is
checked by the runtime. -/
structure UncheckedAcct where
  key : Pubkey
  signed : Bool
deriving Repr, DecidableEq

/-- Errors of the external SPL token program (the AssetLedger collaborator). -/
inductive TokenError where
  | MintMismatch
  | InsufficientFunds
  | Overflow
deriving Repr, DecidableEq

/-- Modelled from the spec: the AssetLedger transfer operation of the external
token program (spec section 6), as invoked through transfer_checked. It fails
atomically: on MintMismatch when either account does not hold the given mint,
on InsufficientFunds when the source balance is below the amount, and on
Overflow when the destination balance would exceed u64; otherwise it moves
exactly the amount from source to destination. -/
def transferChecked (m : Mint) (src dst : TokenAccount) (amt : Nat) :
    Except TokenError (TokenAccount × TokenAccount) :=
  if src.mint ≠ m.key then Except.error TokenError.MintMismatch else
  if dst.mint ≠ m.key then Except.error TokenError.MintMismatch else
  if src.amount < amt then Except.error TokenError.InsufficientFunds else
  if U64LIM ≤ dst.amount + amt then Except.error TokenError.Overflow else
  Except.ok ({ src with amount := src.amount - amt },
             { dst with amount := dst.amount + amt })

/-- Modelled from the spec: the AssetLedger mint operation of the external
token program (spec section 6), as invoked through mint_to. It adds the amount
to the supply of the mint and to the destination balance, failing atomically on
a mint mismatch or on u64 overflow of either quantity. -/
def mintTo (m : Mint) (dst : TokenAccount) (amt : Nat) :
    Except TokenError (Mint × TokenAccount) :=
  if dst.mint ≠ m.key then Except.error TokenError.MintMismatch else
  if U64LIM ≤ m.supply + amt then Except.error TokenError.Overflow else
  if U64LIM ≤ dst.amount + amt then Except.error TokenError.Overflow else
  Except.ok ({ m with supply := m.supply + amt },
             { dst with amount := dst.amount + amt })

/-- Modelled from the spec: the AssetLedger burn operation of the external
token program (spec section 6). It subtracts the amount from the source balance
and from the supply of the mint, failing atomically on a mint mismatch or on
underflow of either quantity. -/
def burnOp (m : Mint) (src : TokenAccount) (amt : Nat) :
    Except TokenError (Mint × TokenAccount) :=
  if src.mint ≠ m.key then Except.error TokenError.MintMismatch else
  if src.amount < amt then Except.error TokenError.InsufficientFunds else
  if m.supply < amt then Except.error TokenError.Overflow else
  Except.ok ({ m with supply := m.supply - amt },
             { src with amount := src.amount - amt })

/-- Embedding of DepositError from instructions/deposit.rs. -/
inductive DepositError where
  | InvalidAmount
  | InvalidVaultState
  | MathOverflow
  | InsufficientShares
  | InvalidShareMint
deriving Repr, DecidableEq

/-- Embedding of RedeemError from instructions/redeem.rs. -/
inductive RedeemError where
  | InvalidAmount
  | NoShares
  | EmptyVault
  | MathOverflow
  | InsufficientUnderlying
deriving Repr, DecidableEq

/-- Embedding of TransferOwnershipError from instructions/transfer_ownership.rs. -/
inductive TransferOwnershipError where
  | Unauthorized
deriving Repr, DecidableEq

/-- Overall error of a deposit call: a program error of the handler or an
error propagated from a token-program CPI. -/
inductive DepErr where
  | program (e : DepositError)
  | token (e : TokenError)
deriving Repr, DecidableEq

/-- Overall error of a redeem call: a program error of the handler or an
error propagated from a token-program CPI. -/
inductive RedErr where
  | program (e : RedeemError)
  | token (e : TokenError)
deriving Repr, DecidableEq

/-- Accounts of the Deposit instruction (instructions/deposit.rs). The
vault_authority PDA carries no data used by the handler beyond its bump and is
omitted; the signer flag of the depositor is kept explicit. -/
structure DepositAccounts where
  vault : Vault
  underlying_mint : Mint
  vault_token_account : TokenAccount
  share_mint : Mint
  depositor_underlying_account : TokenAccount
  depositor_share_account : TokenAccount
  depositor : Pubkey
  depositor_signed : Bool
deriving Repr, DecidableEq

/-- Accounts of the Redeem instruction (instructions/redeem.rs). -/
structure RedeemAccounts where
  vault : Vault
  underlying_mint : Mint
  vault_token_account : TokenAccount
  share_mint : Mint
  redeemer_underlying_account : TokenAccount
  redeemer_share_account : TokenAccount
  redeemer : Pubkey
  redeemer_signed : Bool
deriving Repr, DecidableEq

/-- Accounts of the TransferOwnership instruction
(instructions/transfer_ownership.rs): the protocol state plus two
UncheckedAccounts. Neither current_owner nor new_owner carries any Anchor
constraint; in particular neither is declared a Signer. -/
structure TransferOwnershipAccounts where
  protocol_state : ProtocolState
  current_owner : UncheckedAcct
  new_owner : UncheckedAcct
deriving Repr, DecidableEq

/-- Data-level Anchor account constraints of the Deposit accounts struct:
the has_one constraints of the vault, the token mint and authority constraints
of the two depositor accounts, and the Signer requirement on the depositor.
PDA seed derivation is address computation and is not modelled. -/
def depositAccountsOk (a : DepositAccounts) : Bool :=
  a.vault.underlying_mint == a.underlying_mint.key &&
  a.vault.vault_token_account == a.vault_token_account.key &&
  a.depositor_underlying_account.mint == a.underlying_mint.key &&
  a.depositor_underlying_account.owner == a.depositor &&
  a.depositor_share_account.mint == a.share_mint.key &&
  a.depositor_share_account.owner == a.depositor &&
  a.depositor_signed

/-- Data-level Anchor account constraints of the Redeem accounts struct. Note
that the share_mint account carries no constraint at all: nothing ties it to
vault.share_mint. PDA seed derivation is address computation and is not
modelled. -/
def redeemAccountsOk (a : RedeemAccounts) : Bool :=
  a.vault.underlying_mint == a.underlying_mint.key &&
  a.vault.vault_token_account == a.vault_token_account.key &&
  a.redeemer_underlying_account.mint == a.underlying_mint.key &&
  a.redeemer_underlying_account.owner == a.redeemer &&
  a.redeemer_share_account.mint == a.share_mint.key &&
  a.redeemer_share_account.owner == a.redeemer &&
  a.redeemer_signed

/-- Share computation of the deposit handler (instructions/deposit.rs lines
70 to 89): amount itself when the share supply is zero, otherwise the u128
checked product amount * total_shares divided by total_assets, narrowed to u64
by the cast written as u64 in the source. -/
def depositCalcShares (a : DepositAccounts) (amount : Nat) : Except DepositError Nat :=
  if a.share_mint.supply = 0 then Except.ok amount
  else if a.vault_token_account.amount = 0 then Except.error DepositError.InvalidVaultState
  else match checkedMul128 amount a.share_mint.supply with
    | none => Except.error DepositError.MathOverflow
    | some p =>
      match checkedDiv128 p a.vault_token_account.amount with
      | none => Except.error DepositError.MathOverflow
      | some q => Except.ok (toU64 q)

/-- Result of a successful deposit: the mutated accounts and the shares
minted. -/
structure DepositResult where
  vault_token_account : TokenAccount
  share_mint : Mint
  depositor_underlying_account : TokenAccount
  depositor_share_account : TokenAccount
  shares_to_mint : Nat
deriving Repr, DecidableEq

/-- Embedding of the deposit handler (instructions/deposit.rs): validates
amount and the share mint, computes shares_to_mint, requires it positive,
transfers amount of the underlying from the depositor to the vault custody
account, then mints shares_to_mint shares to the depositor. -/
def deposit (a : DepositAccounts) (amount : Nat) : Except DepErr DepositResult :=
  if amount = 0 then Except.error (DepErr.program DepositError.InvalidAmount) else
  if a.share_mint.key ≠ a.vault.share_mint then
    Except.error (DepErr.program DepositError.InvalidShareMint) else
  match depositCalcShares a amount with
  | Except.error e => Except.error (DepErr.program e)
  | Except.ok shares_to_mint =>
    if shares_to_mint = 0 then Except.error (DepErr.program DepositError.InsufficientShares) else
    match transferChecked a.underlying_mint a.depositor_underlying_account
        a.vault_token_account amount with
    | Except.error e => Except.error (DepErr.token e)
    | Except.ok (dep_after, vault_after) =>
      match mintTo a.share_mint a.depositor_share_account shares_to_mint with
      | Except.error e => Except.error (DepErr.token e)
      | Except.ok (mint_after, share_acct_after) =>
        Except.ok { vault_token_account := vault_after,
                    share_mint := mint_after,
                    depositor_underlying_account := dep_after,
                    depositor_share_account := share_acct_after,
                    shares_to_mint := shares_to_mint }

/-- Result of a successful redeem: the mutated accounts and the underlying
returned. -/
structure RedeemResult where
  vault_token_account : TokenAccount
  share_mint : Mint
  redeemer_underlying_account : TokenAccount
  redeemer_share_account : TokenAccount
  underlying_returned : Nat
deriving Repr, DecidableEq

/-- Underlying computation of the redeem handler (instructions/redeem.rs lines
67 to 75): the u128 checked product shares * total_assets divided by
total_shares, narrowed to u64 by the cast written as u64 in the source. -/
def redeemCalcUnderlying (a : RedeemAccounts) (shares : Nat) : Except RedeemError Nat :=
  match checkedMul128 shares a.vault_token_account.amount with
  | none => Except.error RedeemError.MathOverflow
  | some p =>
    match checkedDiv128 p a.share_mint.supply with
    | none => Except.error RedeemError.MathOverflow
    | some q => Except.ok (toU64 q)

/-- Embedding of the redeem handler (instructions/redeem.rs): validates shares,
share supply and vault balance positive, computes underlying_to_return,
requires it positive, burns shares from the redeemer, then transfers
underlying_to_return from the vault custody account to the redeemer. The
handler performs no check that the supplied share mint is the recorded
vault.share_mint. -/
def redeem (a : RedeemAccounts) (shares : Nat) : Except RedErr RedeemResult :=
  if shares = 0 then Except.error (RedErr.program RedeemError.InvalidAmount) else
  if a.share_mint.supply = 0 then Except.error (RedErr.program RedeemError.NoShares) else
  if a.vault_token_account.amount = 0 then Except.error (RedErr.program RedeemError.EmptyVault) else
  match redeemCalcUnderlying a shares with
  | Except.error e => Except.error (RedErr.program e)
  | Except.ok underlying_to_return =>
    if underlying_to_return = 0 then
      Except.error (RedErr.program RedeemError.InsufficientUnderlying) else
    match burnOp a.share_mint a.redeemer_share_account shares with
    | Except.error e => Except.error (RedErr.token e)
    | Except.ok (mint_after, share_acct_after) =>
      match transferChecked a.underlying_mint a.vault_token_account
          a.redeemer_underlying_account underlying_to_return with
      | Except.error e => Except.error (RedErr.token e)
      | Except.ok (vault_after, red_after) =>
        Except.ok { vault_token_account := vault_after,
                    share_mint := mint_after,
                    redeemer_underlying_account := red_after,
                    redeemer_share_account := share_acct_after,
                    underlying_returned := underlying_to_return }

/-- Embedding of the transfer_ownership handler
(instructions/transfer_ownership.rs): requires only that the key of the
supplied current_owner account equals the stored owner, then overwrites the
owner with the key of the supplied new_owner account. No signature of either
account is consulted. -/
def transfer_ownership (a : TransferOwnershipAccounts) :
    Except TransferOwnershipError ProtocolState :=
  if a.current_owner.key = a.protocol_state.owner then
    Except.ok { a.protocol_state with owner := a.new_owner.key }
  else Except.error TransferOwnershipError.Unauthorized

/-- State of the deposit accounts after the instruction completes, under the
transactional semantics of the host runtime (spec sections 5 and 6: the paired
side effects are a single atomic unit and a failed call leaves every balance
unchanged): the mutated accounts on success, the original accounts on any
error. -/
def depositFinal (a : DepositAccounts) (amount : Nat) : DepositAccounts :=
  match deposit a amount with
  | Except.ok res =>
    { a with vault_token_account := res.vault_token_account,
             share_mint := res.share_mint,
             depositor_underlying_account := res.depositor_underlying_account,
             depositor_share_account := res.depositor_share_account }
  | Except.error _ => a

/-- State of the redeem accounts after the instruction completes, under the
same transactional semantics as depositFinal. -/
def redeemFinal (a : RedeemAccounts) (shares : Nat) : RedeemAccounts :=
  match redeem a shares with
  | Except.ok res =>
    { a with vault_token_account := res.vault_token_account,
             share_mint := res.share_mint,
             redeemer_underlying_account := res.redeemer_underlying_account,
             redeemer_share_account := res.redeemer_share_account }
  | Except.error _ => a

/-- Well-formedness of deposit account state: every u64 balance and supply
field is in range. -/
def DepositAccounts.wf (a : DepositAccounts) : Prop :=
  a.share_mint.supply < U64LIM ∧ a.vault_token_account.amount < U64LIM ∧
  a.depositor_underlying_account.amount < U64LIM ∧
  a.depositor_share_account.amount < U64LIM

instance (a : DepositAccounts) : Decidable a.wf := by
  unfold DepositAccounts.wf
  infer_instance

/-- Well-formedness of redeem account state: every u64 balance and supply
field is in range. -/
def RedeemAccounts.wf (a : RedeemAccounts) : Prop :=
  a.share_mint.supply < U64LIM ∧ a.vault_token_account.amount < U64LIM ∧
  a.redeemer_underlying_account.amount < U64LIM ∧
  a.redeemer_share_account.amount < U64LIM

instance (a : RedeemAccounts) : Decidable a.wf := by
  unfold RedeemAccounts.wf
  infer_instance

theorem transferChecked_ok (m : Mint) (src dst : TokenAccount) (amt : Nat)
    (p : TokenAccount × TokenAccount)
    (h : transferChecked m src dst amt = Except.ok p) :
    src.mint = m.key ∧ dst.mint = m.key ∧ amt ≤ src.amount ∧
    dst.amount + amt < U64LIM ∧
    p.1 = { src with amount := src.amount - amt } ∧
    p.2 = { dst with amount := dst.amount + amt } := by
  unfold transferChecked at h
  repeat' split at h
  any_goals exact Except.noConfusion h
  simp only [Except.ok.injEq] at h
  subst h
  simp_all

theorem mintTo_ok (m : Mint) (dst : TokenAccount) (amt : Nat)
    (p : Mint × TokenAccount)
    (h : mintTo m dst amt = Except.ok p) :
    dst.mint = m.key ∧ m.supply + amt < U64LIM ∧ dst.amount + amt < U64LIM ∧
    p.1 = { m with supply := m.supply + amt } ∧
    p.2 = { dst with amount := dst.amount + amt } := by
  unfold mintTo at h
  repeat' split at h
  any_goals exact Except.noConfusion h
  simp only [Except.ok.injEq] at h
  subst h
  simp_all

theorem burnOp_ok (m : Mint) (src : TokenAccount) (amt : Nat)
    (p : Mint × TokenAccount)
    (h : burnOp m src amt = Except.ok p) :
    src.mint = m.key ∧ amt ≤ src.amount ∧ amt ≤ m.supply ∧
    p.1 = { m with supply := m.supply - amt } ∧
    p.2 = { src with amount := src.amount - amt } := by
  unfold burnOp at h
  repeat' split at h
  any_goals exact Except.noConfusion h
  simp only [Except.ok.injEq] at h
  subst h
  simp_all

theorem checkedMul128_eq_some (a b p : Nat) :
    checkedMul128 a b = some p ↔ a * b < U128LIM ∧ p = a * b := by
  unfold checkedMul128
  split <;> simp_all
  omega

theorem checkedMul128_eq_none (a b : Nat) :
    checkedMul128 a b = none ↔ U128LIM ≤ a * b := by
  unfold checkedMul128
  split <;> simp_all

theorem checkedDiv128_eq_some (a b q : Nat) :
    checkedDiv128 a b = some q ↔ b ≠ 0 ∧ q = a / b := by
  unfold checkedDiv128
  split <;> simp_all
  omega

theorem checkedDiv128_eq_none (a b : Nat) :
    checkedDiv128 a b = none ↔ b = 0 := by
  unfold checkedDiv128
  split <;> simp_all

theorem depositCalcShares_ok (a : DepositAccounts) (amount n : Nat)
    (h : depositCalcShares a amount = Except.ok n) :
    (a.share_mint.supply = 0 ∧ n = amount) ∨
    (0 < a.share_mint.supply ∧ 0 < a.vault_token_account.amount ∧
     amount * a.share_mint.supply < U128LIM ∧
     n = amount * a.share_mint.supply / a.vault_token_account.amount % U64LIM) := by
  unfold depositCalcShares at h
  repeat' split at h
  any_goals exact Except.noConfusion h
  · left
    simp only [Except.ok.injEq] at h
    exact ⟨by assumption, h.symm⟩
  · right
    rename_i o1 p1 hp o2 q1 hq
    rw [checkedMul128_eq_some] at hp
    rw [checkedDiv128_eq_some] at hq
    obtain ⟨hm1, rfl⟩ := hp
    obtain ⟨hd1, rfl⟩ := hq
    simp only [Except.ok.injEq] at h
    subst h
    unfold toU64
    exact ⟨by omega, by omega, hm1, rfl⟩

theorem redeemCalcUnderlying_ok (a : RedeemAccounts) (shares u : Nat)
    (h : redeemCalcUnderlying a shares = Except.ok u) :
    0 < a.share_mint.supply ∧
    shares * a.vault_token_account.amount < U128LIM ∧
    u = shares * a.vault_token_account.amount / a.share_mint.supply % U64LIM := by
  unfold redeemCalcUnderlying at h
  repeat' split at h
  any_goals exact Except.noConfusion h
  rename_i o1 p1 hp o2 q1 hq
  rw [checkedMul128_eq_some] at hp
  rw [checkedDiv128_eq_some] at hq
  obtain ⟨hm1, rfl⟩ := hp
  obtain ⟨hd1, rfl⟩ := hq
  simp only [Except.ok.injEq] at h
  subst h
  unfold toU64
  exact ⟨by omega, hm1, rfl⟩

theorem deposit_ok (a : DepositAccounts) (amount : Nat) (res : DepositResult)
    (h : deposit a amount = Except.ok res) :
    0 < amount ∧
    a.share_mint.key = a.vault.share_mint ∧
    depositCalcShares a amount = Except.ok res.shares_to_mint ∧
    0 < res.shares_to_mint ∧
    amount ≤ a.depositor_underlying_account.amount ∧
    a.vault_token_account.amount + amount < U64LIM ∧
    a.share_mint.supply + res.shares_to_mint < U64LIM ∧
    a.depositor_share_account.amount + res.shares_to_mint < U64LIM ∧
    res.vault_token_account =
      { a.vault_token_account with amount := a.vault_token_account.amount + amount } ∧
    res.depositor_underlying_account =
      { a.depositor_underlying_account with
          amount := a.depositor_underlying_account.amount - amount } ∧
    res.share_mint =
      { a.share_mint with supply := a.share_mint.supply + res.shares_to_mint } ∧
    res.depositor_share_account =
      { a.depositor_share_account with
          amount := a.depositor_share_account.amount + res.shares_to_mint } := by
  unfold deposit at h
  repeat' split at h
  any_goals exact Except.noConfusion h
  rename_i ha hk o1 n hcalc hn o2 dep_after vault_after htr o3 mint_after share_after hmint
  obtain ⟨ht1, ht2, ht3, ht4, ht5, ht6⟩ :=
    transferChecked_ok _ _ _ _ _ htr
  obtain ⟨hm1, hm2, hm3, hm4, hm5⟩ :=
    mintTo_ok _ _ _ _ hmint
  simp only at ht5 ht6 hm4 hm5
  simp only [Except.ok.injEq] at h
  subst h
  simp only
  subst ht5
  subst ht6
  subst hm4
  subst hm5
  exact ⟨by omega, by simpa using hk, hcalc, by omega, by omega, ht4, hm2, hm3,
    rfl, rfl, rfl, rfl⟩

theorem redeem_ok (a : RedeemAccounts) (shares : Nat) (res : RedeemResult)
    (h : redeem a shares = Except.ok res) :
    0 < shares ∧
    0 < a.share_mint.supply ∧
    0 < a.vault_token_account.amount ∧
    redeemCalcUnderlying a shares = Except.ok res.underlying_returned ∧
    0 < res.underlying_returned ∧
    shares ≤ a.redeemer_share_account.amount ∧
    shares ≤ a.share_mint.supply ∧
    res.underlying_returned ≤ a.vault_token_account.amount ∧
    a.redeemer_underlying_account.amount + res.underlying_returned < U64LIM ∧
    res.share_mint =
      { a.share_mint with supply := a.share_mint.supply - shares } ∧
    res.redeemer_share_account =
      { a.redeemer_share_account with
          amount := a.redeemer_share_account.amount - shares } ∧
    res.vault_token_account =
      { a.vault_token_account with
          amount := a.vault_token_account.amount - res.underlying_returned } ∧
    res.redeemer_underlying_account =
      { a.redeemer_underlying_account with
          amount := a.redeemer_underlying_account.amount + res.underlying_returned } := by
  unfold redeem at h
  repeat' split at h
  any_goals exact Except.noConfusion h
  rename_i hs hsup hva o1 u hcalc hu o2 mint_after share_after hburn o3 vault_after red_after htr
  obtain ⟨hb1, hb2, hb3, hb4, hb5⟩ :=
    burnOp_ok _ _ _ _ hburn
  obtain ⟨ht1, ht2, ht3, ht4, ht5, ht6⟩ :=
    transferChecked_ok _ _ _ _ _ htr
  simp only at hb4 hb5 ht5 ht6
  simp only [Except.ok.injEq] at h
  subst h
  simp only
  subst hb4
  subst hb5
  subst ht5
  subst ht6
  exact ⟨by omega, by omega, by omega, hcalc, by omega, hb2, hb3, by omega, ht4,
    rfl, rfl, rfl, rfl⟩

theorem mul_lt_U128LIM (x y : Nat) (hx : x < U64LIM) (hy : y < U64LIM) :
    x * y < U128LIM := by
  calc x * y ≤ (U64LIM - 1) * (U64LIM - 1) := Nat.mul_le_mul (by omega) (by omega)
    _ < U128LIM := by norm_num [U64LIM, U128LIM]

theorem depositCalcShares_no_MathOverflow (a : DepositAccounts) (amount : Nat)
    (hmul : amount * a.share_mint.supply < U128LIM) :
    depositCalcShares a amount ≠ Except.error DepositError.MathOverflow := by
  intro h
  unfold depositCalcShares at h
  repeat' split at h
  any_goals exact Except.noConfusion h
  any_goals simp at h
  · rename_i hs ha o heq
    rw [checkedMul128_eq_none] at heq
    omega
  · rename_i hs ha o p hp o2 heq
    rw [checkedDiv128_eq_none] at heq
    omega

theorem redeemCalcUnderlying_no_MathOverflow (a : RedeemAccounts) (shares : Nat)
    (hmul : shares * a.vault_token_account.amount < U128LIM)
    (hsup : a.share_mint.supply ≠ 0) :
    redeemCalcUnderlying a shares ≠ Except.error RedeemError.MathOverflow := by
  intro h
  unfold redeemCalcUnderlying at h
  repeat' split at h
  any_goals exact Except.noConfusion h
  · rename_i o heq
    rw [checkedMul128_eq_none] at heq
    omega
  · rename_i o p hp o2 heq
    rw [checkedDiv128_eq_none] at heq
    omega

theorem deposit_no_MathOverflow (a : DepositAccounts) (amount : Nat)
    (hsup : a.share_mint.supply < U64LIM) (ham : amount < U64LIM) :
    deposit a amount ≠ Except.error (DepErr.program DepositError.MathOverflow) := by
  have hmul := mul_lt_U128LIM amount a.share_mint.supply ham hsup
  intro h
  unfold deposit at h
  repeat' split at h
  any_goals exact Except.noConfusion h
  any_goals simp at h
  rename_i e heq
  subst h
  exact depositCalcShares_no_MathOverflow a amount hmul heq

theorem redeem_no_MathOverflow (a : RedeemAccounts) (shares : Nat)
    (hva : a.vault_token_account.amount < U64LIM) (hsh : shares < U64LIM) :
    redeem a shares ≠ Except.error (RedErr.program RedeemError.MathOverflow) := by
  have hmul := mul_lt_U128LIM shares a.vault_token_account.amount hsh hva
  intro h
  unfold redeem at h
  repeat' split at h
  any_goals exact Except.noConfusion h
  any_goals simp at h
  rename_i hs hsup hva2 e heq
  subst h
  exact redeemCalcUnderlying_no_MathOverflow a shares hmul (by omega) heq

/-- Concrete redeem account state whose supplied share mint (key 9) differs
from the share mint recorded in the vault (key 1), with every modelled Anchor
constraint satisfied. -/
def c1Accounts : RedeemAccounts :=
  { vault := { share_mint := 1, underlying_mint := 2, vault_token_account := 3, bump := 0 },
    underlying_mint := { key := 2, supply := 1000, decimals := 0 },
    vault_token_account := { key := 3, mint := 2, owner := 100, amount := 100 },
    share_mint := { key := 9, supply := 100, decimals := 0 },
    redeemer_underlying_account := { key := 5, mint := 2, owner := 7, amount := 0 },
    redeemer_share_account := { key := 6, mint := 9, owner := 7, amount := 100 },
    redeemer := 7,
    redeemer_signed := true }

/-- C1 counterexample: a redeem call whose supplied share asset differs from
the recorded vault.share_mint passes every modelled account constraint and
succeeds, returning 50 underlying from the vault custody account while burning
shares of the foreign mint, contrary to the claim that such a call cannot
succeed. -/
theorem C1_counterexample_foreign_mint_redeem_succeeds :
    c1Accounts.share_mint.key ≠ c1Accounts.vault.share_mint ∧
    redeemAccountsOk c1Accounts = true ∧
    redeem c1Accounts 50 =
      Except.ok
        { vault_token_account := { key := 3, mint := 2, owner := 100, amount := 50 },
          share_mint := { key := 9, supply := 50, decimals := 0 },
          redeemer_underlying_account := { key := 5, mint := 2, owner := 7, amount := 50 },
          redeemer_share_account := { key := 6, mint := 9, owner := 7, amount := 50 },
          underlying_returned := 50 } := by
  refine ⟨by decide, by decide, ?_⟩
  rfl

/-- C1 amended: only the deposit handler validates the supplied share mint
against vault.share_mint, failing with InvalidShareMint on mismatch; the
redeem handler and the Redeem account constraints are entirely insensitive to
the recorded vault.share_mint, so a redeem whose supplied share asset differs
from the recorded one can succeed. -/
theorem C1_amended_only_deposit_checks_share_mint
    (a : DepositAccounts) (amount : Nat)
    (r : RedeemAccounts) (v : Pubkey) (s : Nat)
    (h0 : 0 < amount) (hne : a.share_mint.key ≠ a.vault.share_mint) :
    deposit a amount = Except.error (DepErr.program DepositError.InvalidShareMint) ∧
    redeem { r with vault := { r.vault with share_mint := v } } s = redeem r s ∧
    redeemAccountsOk { r with vault := { r.vault with share_mint := v } } =
      redeemAccountsOk r := by
  refine ⟨?_, rfl, rfl⟩
  unfold deposit
  rw [if_neg (by omega), if_pos hne]

/-- Concrete deposit account state whose supplied share mint differs from the
recorded vault.share_mint. -/
def c1DepAccounts : DepositAccounts :=
  { vault := { share_mint := 1, underlying_mint := 2, vault_token_account := 3, bump := 0 },
    underlying_mint := { key := 2, supply := 1000, decimals := 0 },
    vault_token_account := { key := 3, mint := 2, owner := 100, amount := 100 },
    share_mint := { key := 9, supply := 100, decimals := 0 },
    depositor_underlying_account := { key := 5, mint := 2, owner := 7, amount := 50 },
    depositor_share_account := { key := 6, mint := 9, owner := 7, amount := 0 },
    depositor := 7,
    depositor_signed := true }

/-- C1 witness: the amended theorem evaluated at concrete inputs. -/
theorem C1_amended_witness :
    deposit c1DepAccounts 5 = Except.error (DepErr.program DepositError.InvalidShareMint) ∧
    redeem { c1Accounts with vault := { c1Accounts.vault with share_mint := 77 } } 50 =
      redeem c1Accounts 50 :=
  ⟨(C1_amended_only_deposit_checks_share_mint c1DepAccounts 5 c1Accounts 77 50
      (by decide) (by decide)).1,
   (C1_amended_only_deposit_checks_share_mint c1DepAccounts 5 c1Accounts 77 50
      (by decide) (by decide)).2.1⟩

/-- Concrete transfer_ownership account state in which the supplied
current_owner account has the stored owner key but did not sign the
transaction. -/
def c2Accounts : TransferOwnershipAccounts :=
  { protocol_state := { owner := 42, bump := 0 },
    current_owner := { key := 42, signed := false },
    new_owner := { key := 99, signed := false } }

/-- C2 counterexample: the ownership transfer succeeds and mutates the owner
although neither supplied account signed the call, contrary to the claim that
the stored owner must have authorized (signed) it. -/
theorem C2_counterexample_no_signature_needed :
    c2Accounts.current_owner.signed = false ∧
    c2Accounts.new_owner.signed = false ∧
    transfer_ownership c2Accounts = Except.ok { owner := 99, bump := 0 } ∧
    (99 : Pubkey) ≠ c2Accounts.protocol_state.owner := by
  refine ⟨rfl, rfl, ?_, by decide⟩
  rfl

/-- C2 amended: transfer_ownership mutates ProtocolState.owner exactly when
the key of the supplied current_owner account equals the stored owner, and
fails with Unauthorized otherwise; no signature of the stored owner is
required, so any caller able to name the stored owner key can change the
owner field. -/
theorem C2_amended_key_equality_only (a : TransferOwnershipAccounts) :
    (a.current_owner.key = a.protocol_state.owner →
       transfer_ownership a =
         Except.ok { a.protocol_state with owner := a.new_owner.key }) ∧
    (a.current_owner.key ≠ a.protocol_state.owner →
       transfer_ownership a = Except.error TransferOwnershipError.Unauthorized) := by
  unfold transfer_ownership
  constructor
  · intro h
    rw [if_pos h]
  · intro h
    rw [if_neg h]

/-- Concrete transfer_ownership account state whose current_owner key differs
from the stored owner. -/
def c2BadAccounts : TransferOwnershipAccounts :=
  { protocol_state := { owner := 42, bump := 0 },
    current_owner := { key := 41, signed := true },
    new_owner := { key := 99, signed := true } }

/-- C2 witness: the amended theorem evaluated at concrete inputs, one matching
key and one mismatching key. -/
theorem C2_amended_witness :
    transfer_ownership c2Accounts = Except.ok { owner := 99, bump := 0 } ∧
    transfer_ownership c2BadAccounts = Except.error TransferOwnershipError.Unauthorized :=
  ⟨(C2_amended_key_equality_only c2Accounts).1 (by decide),
   (C2_amended_key_equality_only c2BadAccounts).2 (by decide)⟩

theorem deposit_shares_formula (a : DepositAccounts) (amount : Nat)
    (res : DepositResult) (hd : deposit a amount = Except.ok res)
    (hsup : 0 < a.share_mint.supply) :
    res.shares_to_mint =
      amount * a.share_mint.supply / a.vault_token_account.amount % U64LIM := by
  obtain ⟨-, -, hcalc, -⟩ := deposit_ok a amount res hd
  rcases depositCalcShares_ok a amount res.shares_to_mint hcalc with ⟨h0, -⟩ | ⟨-, -, -, hf⟩
  · omega
  · exact hf

theorem redeem_underlying_formula (a : RedeemAccounts) (shares : Nat)
    (res : RedeemResult) (hr : redeem a shares = Except.ok res) :
    res.underlying_returned =
      shares * a.vault_token_account.amount / a.share_mint.supply % U64LIM := by
  obtain ⟨-, -, -, hcalc, -⟩ := redeem_ok a shares res hr
  exact (redeemCalcUnderlying_ok a shares res.underlying_returned hcalc).2.2

/-- Concrete deposit account state with share supply 3 and custody balance 1:
the exact quotient for a deposit of 2 to the power 63 is 3 times 2 to the
power 63, which does not fit in u64. -/
def c3Accounts : DepositAccounts :=
  { vault := { share_mint := 1, underlying_mint := 2, vault_token_account := 3, bump := 0 },
    underlying_mint := { key := 2, supply := 9300000000000000000, decimals := 0 },
    vault_token_account := { key := 3, mint := 2, owner := 100, amount := 1 },
    share_mint := { key := 1, supply := 3, decimals := 0 },
    depositor_underlying_account :=
      { key := 5, mint := 2, owner := 7, amount := 9223372036854775808 },
    depositor_share_account := { key := 6, mint := 1, owner := 7, amount := 0 },
    depositor := 7,
    depositor_signed := true }

/-- C3 counterexample: the exact floor quotient 3 * 2 ^ 63 exceeds the u64
range, yet the deposit does not fail with MathOverflow: it succeeds, and the
value minted is the quotient truncated to its low 64 bits (2 ^ 63), a wrapped
value, contrary to the claim. -/
theorem C3_counterexample_truncated_quotient_succeeds :
    depositAccountsOk c3Accounts = true ∧
    U64LIM ≤ 9223372036854775808 * c3Accounts.share_mint.supply /
      c3Accounts.vault_token_account.amount ∧
    (deposit c3Accounts 9223372036854775808).toOption.map DepositResult.shares_to_mint =
      some 9223372036854775808 ∧
    (9223372036854775808 : Nat) ≠
      9223372036854775808 * c3Accounts.share_mint.supply /
        c3Accounts.vault_token_account.amount := by
  refine ⟨by decide, by decide, ?_, by decide⟩
  rfl

/-- C3 amended: neither handler can ever fail with MathOverflow (the 128-bit
checked product of u64 operands always fits and the checked division is
guarded by a nonzero divisor); instead, when the exact floor quotient does not
fit in u64 the operation silently uses the quotient reduced modulo 2 ^ 64, so
the 64-bit value minted or transferred is the truncated quotient. -/
theorem C3_amended_no_overflow_failure_but_truncation :
    (∀ (a : DepositAccounts) (amount : Nat),
       a.share_mint.supply < U64LIM → amount < U64LIM →
       deposit a amount ≠ Except.error (DepErr.program DepositError.MathOverflow)) ∧
    (∀ (r : RedeemAccounts) (s : Nat),
       r.vault_token_account.amount < U64LIM → s < U64LIM →
       redeem r s ≠ Except.error (RedErr.program RedeemError.MathOverflow)) ∧
    (∀ (a : DepositAccounts) (amount : Nat) (res : DepositResult),
       deposit a amount = Except.ok res → 0 < a.share_mint.supply →
       res.shares_to_mint =
         amount * a.share_mint.supply / a.vault_token_account.amount % U64LIM) ∧
    (∀ (r : RedeemAccounts) (s : Nat) (rres : RedeemResult),
       redeem r s = Except.ok rres →
       rres.underlying_returned =
         s * r.vault_token_account.amount / r.share_mint.supply % U64LIM) :=
  ⟨fun a amount h1 h2 => deposit_no_MathOverflow a amount h1 h2,
   fun r s h1 h2 => redeem_no_MathOverflow r s h1 h2,
   fun a amount res hd hsup => deposit_shares_formula a amount res hd hsup,
   fun r s rres hr => redeem_underlying_formula r s rres hr⟩

/-- C3 witness: the amended theorem evaluated at the concrete truncating
deposit. -/
theorem C3_amended_witness :
    deposit c3Accounts 9223372036854775808 ≠
      Except.error (DepErr.program DepositError.MathOverflow) :=
  C3_amended_no_overflow_failure_but_truncation.1 c3Accounts 9223372036854775808
    (by decide) (by decide)

/-- Concrete deposit account state with share supply 5 and custody balance 1;
the exact quotient for a deposit of 2 ^ 63 is 5 * 2 ^ 63. -/
def c4Accounts : DepositAccounts :=
  { vault := { share_mint := 1, underlying_mint := 2, vault_token_account := 3, bump := 0 },
    underlying_mint := { key := 2, supply := 9300000000000000000, decimals := 0 },
    vault_token_account := { key := 3, mint := 2, owner := 100, amount := 1 },
    share_mint := { key := 1, supply := 5, decimals := 0 },
    depositor_underlying_account :=
      { key := 5, mint := 2, owner := 7, amount := 9223372036854775808 },
    depositor_share_account := { key := 6, mint := 1, owner := 7, amount := 0 },
    depositor := 7,
    depositor_signed := true }

/-- C4 counterexample: a successful non-bootstrap deposit whose minted shares
(2 ^ 63) differ from the exact floor quotient 5 * 2 ^ 63 computed from the
pre-call supply and balance, refuting the claim that every successful deposit
mints exactly the floor quotient. -/
theorem C4_counterexample_minted_differs_from_floor :
    depositAccountsOk c4Accounts = true ∧
    (deposit c4Accounts 9223372036854775808).toOption.map DepositResult.shares_to_mint =
      some 9223372036854775808 ∧
    9223372036854775808 * c4Accounts.share_mint.supply /
        c4Accounts.vault_token_account.amount = 46116860184273879040 ∧
    (9223372036854775808 : Nat) ≠ 46116860184273879040 := by
  refine ⟨by decide, ?_, by decide, by decide⟩
  rfl

/-- C4 amended: for every successful non-bootstrap deposit the minted shares
equal the exact floor quotient amount * total_shares / total_assets reduced
modulo 2 ^ 64, and for every successful redeem the returned underlying equals
shares * total_assets / total_shares reduced modulo 2 ^ 64, with supply and
balance read before any mutation; the values equal the exact floor quotients
whenever those fit in u64. -/
theorem C4_amended_floor_quotient_mod_u64
    (a : DepositAccounts) (amount : Nat) (res : DepositResult)
    (r : RedeemAccounts) (s : Nat) (rres : RedeemResult)
    (hd : deposit a amount = Except.ok res) (hsup : 0 < a.share_mint.supply)
    (hr : redeem r s = Except.ok rres) :
    res.shares_to_mint =
      amount * a.share_mint.supply / a.vault_token_account.amount % U64LIM ∧
    rres.underlying_returned =
      s * r.vault_token_account.amount / r.share_mint.supply % U64LIM :=
  ⟨deposit_shares_formula a amount res hd hsup,
   redeem_underlying_formula r s rres hr⟩

/-- Concrete deposit account state for a successful in-range deposit. -/
def c4NormalDep : DepositAccounts :=
  { vault := { share_mint := 1, underlying_mint := 2, vault_token_account := 3, bump := 0 },
    underlying_mint := { key := 2, supply := 5000, decimals := 0 },
    vault_token_account := { key := 3, mint := 2, owner := 100, amount := 200 },
    share_mint := { key := 1, supply := 100, decimals := 0 },
    depositor_underlying_account := { key := 5, mint := 2, owner := 7, amount := 1000 },
    depositor_share_account := { key := 6, mint := 1, owner := 7, amount := 0 },
    depositor := 7,
    depositor_signed := true }

/-- Result of deposit c4NormalDep 50: shares minted are 50 * 100 / 200 = 25. -/
def c4DepRes : DepositResult :=
  { vault_token_account := { key := 3, mint := 2, owner := 100, amount := 250 },
    share_mint := { key := 1, supply := 125, decimals := 0 },
    depositor_underlying_account := { key := 5, mint := 2, owner := 7, amount := 950 },
    depositor_share_account := { key := 6, mint := 1, owner := 7, amount := 25 },
    shares_to_mint := 25 }

/-- Concrete redeem account state for a successful in-range redeem. -/
def c4NormalRed : RedeemAccounts :=
  { vault := { share_mint := 1, underlying_mint := 2, vault_token_account := 3, bump := 0 },
    underlying_mint := { key := 2, supply := 5000, decimals := 0 },
    vault_token_account := { key := 3, mint := 2, owner := 100, amount := 200 },
    share_mint := { key := 1, supply := 100, decimals := 0 },
    redeemer_underlying_account := { key := 5, mint := 2, owner := 7, amount := 5 },
    redeemer_share_account := { key := 6, mint := 1, owner := 7, amount := 50 },
    redeemer := 7,
    redeemer_signed := true }

/-- Result of redeem c4NormalRed 10: underlying returned is 10 * 200 / 100 = 20. -/
def c4RedRes : RedeemResult :=
  { vault_token_account := { key := 3, mint := 2, owner := 100, amount := 180 },
    share_mint := { key := 1, supply := 90, decimals := 0 },
    redeemer_underlying_account := { key := 5, mint := 2, owner := 7, amount := 25 },
    redeemer_share_account := { key := 6, mint := 1, owner := 7, amount := 40 },
    underlying_returned := 20 }

/-- C4 witness: the amended theorem evaluated at concrete successful deposit
and redeem calls. -/
theorem C4_amended_witness :
    c4DepRes.shares_to_mint = 25 ∧ c4RedRes.underlying_returned = 20 :=
  ⟨(C4_amended_floor_quotient_mod_u64 c4NormalDep 50 c4DepRes c4NormalRed 10 c4RedRes
      (by rfl) (by decide) (by rfl)).1,
   (C4_amended_floor_quotient_mod_u64 c4NormalDep 50 c4DepRes c4NormalRed 10 c4RedRes
      (by rfl) (by decide) (by rfl)).2⟩

/-- C5: every successful deposit into a vault whose share supply is zero mints
shares exactly equal to the deposited amount, whatever residual underlying
balance the custody account already holds. -/
theorem C5_bootstrap_mints_amount (a : DepositAccounts) (amount : Nat)
    (res : DepositResult) (h0 : a.share_mint.supply = 0)
    (hd : deposit a amount = Except.ok res) :
    res.shares_to_mint = amount := by
  obtain ⟨-, -, hcalc, -⟩ := deposit_ok a amount res hd
  rcases depositCalcShares_ok a amount res.shares_to_mint hcalc with ⟨-, hn⟩ | ⟨hs, -⟩
  · exact hn
  · omega

/-- Concrete bootstrap deposit state: zero share supply but a residual custody
balance of 500. -/
def c5Accounts : DepositAccounts :=
  { vault := { share_mint := 1, underlying_mint := 2, vault_token_account := 3, bump := 0 },
    underlying_mint := { key := 2, supply := 5000, decimals := 0 },
    vault_token_account := { key := 3, mint := 2, owner := 100, amount := 500 },
    share_mint := { key := 1, supply := 0, decimals := 0 },
    depositor_underlying_account := { key := 5, mint := 2, owner := 7, amount := 1000 },
    depositor_share_account := { key := 6, mint := 1, owner := 7, amount := 0 },
    depositor := 7,
    depositor_signed := true }

/-- Result of deposit c5Accounts 7. -/
def c5Res : DepositResult :=
  { vault_token_account := { key := 3, mint := 2, owner := 100, amount := 507 },
    share_mint := { key := 1, supply := 7, decimals := 0 },
    depositor_underlying_account := { key := 5, mint := 2, owner := 7, amount := 993 },
    depositor_share_account := { key := 6, mint := 1, owner := 7, amount := 7 },
    shares_to_mint := 7 }

/-- C5 witness: a bootstrap deposit of 7 into a vault with a residual custody
balance of 500 mints exactly 7 shares. -/
theorem C5_witness : c5Res.shares_to_mint = 7 :=
  C5_bootstrap_mints_amount c5Accounts 7 c5Res (by decide) (by rfl)

/-- C6: for every successful deposit with positive prior share supply, the
value per share does not decrease, in cross-multiplied form:
vault_balance_before * share_supply_after is at most
vault_balance_after * share_supply_before. -/
theorem C6_share_value_monotone (a : DepositAccounts) (amount : Nat)
    (res : DepositResult) (hsup : 0 < a.share_mint.supply)
    (hd : deposit a amount = Except.ok res) :
    a.vault_token_account.amount * res.share_mint.supply ≤
      res.vault_token_account.amount * a.share_mint.supply := by
  obtain ⟨-, -, hcalc, -, -, -, -, -, hv, -, hm, -⟩ := deposit_ok a amount res hd
  rcases depositCalcShares_ok a amount res.shares_to_mint hcalc with ⟨h0, -⟩ | ⟨-, hA, -, hf⟩
  · omega
  · rw [hv, hm]
    simp only
    have h1 : res.shares_to_mint ≤
        amount * a.share_mint.supply / a.vault_token_account.amount := by
      rw [hf]
      exact Nat.mod_le _ _
    have h2 : a.vault_token_account.amount *
        (amount * a.share_mint.supply / a.vault_token_account.amount) ≤
        amount * a.share_mint.supply := by
      rw [mul_comm]
      exact Nat.div_mul_le_self _ _
    have h3 : a.vault_token_account.amount * res.shares_to_mint ≤
        amount * a.share_mint.supply :=
      le_trans (Nat.mul_le_mul_left _ h1) h2
    calc a.vault_token_account.amount * (a.share_mint.supply + res.shares_to_mint)
        = a.vault_token_account.amount * a.share_mint.supply +
          a.vault_token_account.amount * res.shares_to_mint := by ring
      _ ≤ a.vault_token_account.amount * a.share_mint.supply +
          amount * a.share_mint.supply := by omega
      _ = (a.vault_token_account.amount + amount) * a.share_mint.supply := by ring

/-- C6 witness: the monotonicity theorem evaluated at the concrete deposit of
50 into a vault with supply 100 and balance 200. -/
theorem C6_witness :
    c4NormalDep.vault_token_account.amount * c4DepRes.share_mint.supply ≤
      c4DepRes.vault_token_account.amount * c4NormalDep.share_mint.supply :=
  C6_share_value_monotone c4NormalDep 50 c4DepRes (by decide) (by rfl)

/-- C7: a successful deposit always mints a positive number of shares and a
successful redeem always returns a positive amount of underlying; when the
computed counter-amount is zero the handlers fail with InsufficientShares and
InsufficientUnderlying respectively instead of succeeding. -/
theorem C7_no_zero_value_exchange (a : DepositAccounts) (amount : Nat)
    (r : RedeemAccounts) (s : Nat) :
    (∀ res, deposit a amount = Except.ok res → 0 < res.shares_to_mint) ∧
    (0 < amount → a.share_mint.key = a.vault.share_mint →
       depositCalcShares a amount = Except.ok 0 →
       deposit a amount = Except.error (DepErr.program DepositError.InsufficientShares)) ∧
    (∀ res, redeem r s = Except.ok res → 0 < res.underlying_returned) ∧
    (0 < s → 0 < r.share_mint.supply → 0 < r.vault_token_account.amount →
       redeemCalcUnderlying r s = Except.ok 0 →
       redeem r s = Except.error (RedErr.program RedeemError.InsufficientUnderlying)) := by
  refine ⟨?_, ?_, ?_, ?_⟩
  · intro res hd
    exact (deposit_ok a amount res hd).2.2.2.1
  · intro h0 hk hcalc
    unfold deposit
    rw [if_neg (by omega), if_neg (by simp [hk]), hcalc]
    rfl
  · intro res hr
    exact (redeem_ok r s res hr).2.2.2.2.1
  · intro h0 h1 h2 hcalc
    unfold redeem
    rw [if_neg (by omega), if_neg (by omega), if_neg (by omega), hcalc]
    rfl

/-- Concrete deposit state where the computed shares round to zero:
supply 1, custody balance 3, deposit amount 1. -/
def c7DepAccounts : DepositAccounts :=
  { vault := { share_mint := 1, underlying_mint := 2, vault_token_account := 3, bump := 0 },
    underlying_mint := { key := 2, supply := 5000, decimals := 0 },
    vault_token_account := { key := 3, mint := 2, owner := 100, amount := 3 },
    share_mint := { key := 1, supply := 1, decimals := 0 },
    depositor_underlying_account := { key := 5, mint := 2, owner := 7, amount := 1000 },
    depositor_share_account := { key := 6, mint := 1, owner := 7, amount := 0 },
    depositor := 7,
    depositor_signed := true }

/-- Concrete redeem state where the computed underlying rounds to zero:
supply 3, custody balance 1, redeem of 1 share. -/
def c7RedAccounts : RedeemAccounts :=
  { vault := { share_mint := 1, underlying_mint := 2, vault_token_account := 3, bump := 0 },
    underlying_mint := { key := 2, supply := 5000, decimals := 0 },
    vault_token_account := { key := 3, mint := 2, owner := 100, amount := 1 },
    share_mint := { key := 1, supply := 3, decimals := 0 },
    redeemer_underlying_account := { key := 5, mint := 2, owner := 7, amount := 0 },
    redeemer_share_account := { key := 6, mint := 1, owner := 7, amount := 3 },
    redeemer := 7,
    redeemer_signed := true }

/-- C7 witness: at the concrete rounding-to-zero inputs both handlers fail
with the dedicated errors. -/
theorem C7_witness :
    deposit c7DepAccounts 1 = Except.error (DepErr.program DepositError.InsufficientShares) ∧
    redeem c7RedAccounts 1 = Except.error (RedErr.program RedeemError.InsufficientUnderlying) :=
  ⟨(C7_no_zero_value_exchange c7DepAccounts 1 c7RedAccounts 1).2.1
      (by decide) (by decide) (by rfl),
   (C7_no_zero_value_exchange c7DepAccounts 1 c7RedAccounts 1).2.2.2
      (by decide) (by decide) (by decide) (by rfl)⟩

/-- C8: a successful deposit moves exactly amount from the depositor to the
vault custody account and a successful redeem moves exactly
underlying_returned from the vault custody account to the redeemer, so the
total underlying held by the vault and the counterparty together is conserved
by both calls. -/
theorem C8_exact_transfer_conservation (a : DepositAccounts) (amount : Nat)
    (res : DepositResult) (r : RedeemAccounts) (s : Nat) (rres : RedeemResult)
    (hd : deposit a amount = Except.ok res) (hr : redeem r s = Except.ok rres) :
    res.vault_token_account.amount = a.vault_token_account.amount + amount ∧
    res.depositor_underlying_account.amount =
      a.depositor_underlying_account.amount - amount ∧
    amount ≤ a.depositor_underlying_account.amount ∧
    res.vault_token_account.amount + res.depositor_underlying_account.amount =
      a.vault_token_account.amount + a.depositor_underlying_account.amount ∧
    rres.vault_token_account.amount =
      r.vault_token_account.amount - rres.underlying_returned ∧
    rres.redeemer_underlying_account.amount =
      r.redeemer_underlying_account.amount + rres.underlying_returned ∧
    rres.underlying_returned ≤ r.vault_token_account.amount ∧
    rres.vault_token_account.amount + rres.redeemer_underlying_account.amount =
      r.vault_token_account.amount + r.redeemer_underlying_account.amount := by
  obtain ⟨-, -, -, -, hdep, -, -, -, hv, hdu, -, -⟩ := deposit_ok a amount res hd
  obtain ⟨-, -, -, -, -, -, -, hret, -, -, -, hrv, hru⟩ := redeem_ok r s rres hr
  have h1 : res.vault_token_account.amount = a.vault_token_account.amount + amount := by
    rw [hv]
  have h2 : res.depositor_underlying_account.amount =
      a.depositor_underlying_account.amount - amount := by
    rw [hdu]
  have h3 : rres.vault_token_account.amount =
      r.vault_token_account.amount - rres.underlying_returned := by
    rw [hrv]
  have h4 : rres.redeemer_underlying_account.amount =
      r.redeemer_underlying_account.amount + rres.underlying_returned := by
    rw [hru]
  omega

/-- C8 witness: exact transfer and conservation at the concrete deposit of 50
and redeem of 10. -/
theorem C8_witness :
    c4DepRes.vault_token_account.amount =
      c4NormalDep.vault_token_account.amount + 50 ∧
    c4RedRes.vault_token_account.amount + c4RedRes.redeemer_underlying_account.amount =
      c4NormalRed.vault_token_account.amount +
        c4NormalRed.redeemer_underlying_account.amount := by
  have h := C8_exact_transfer_conservation c4NormalDep 50 c4DepRes c4NormalRed 10 c4RedRes
    (by rfl) (by rfl)
  exact ⟨h.1, h.2.2.2.2.2.2.2⟩

/-- C9: deposit and redeem are all-or-nothing under the transactional
semantics of the host: a call that returns any error leaves every account
exactly as it was, and a successful call applies exactly the paired side
effects (underlying transfer plus share mint for deposit, share burn plus
underlying transfer for redeem). -/
theorem C9_all_or_nothing (a : DepositAccounts) (amount : Nat)
    (r : RedeemAccounts) (s : Nat) :
    ((deposit a amount).isOk = false → depositFinal a amount = a) ∧
    (∀ res, deposit a amount = Except.ok res →
       depositFinal a amount =
         { a with
             vault_token_account :=
               { a.vault_token_account with
                   amount := a.vault_token_account.amount + amount },
             share_mint :=
               { a.share_mint with
                   supply := a.share_mint.supply + res.shares_to_mint },
             depositor_underlying_account :=
               { a.depositor_underlying_account with
                   amount := a.depositor_underlying_account.amount - amount },
             depositor_share_account :=
               { a.depositor_share_account with
                   amount := a.depositor_share_account.amount + res.shares_to_mint } }) ∧
    ((redeem r s).isOk = false → redeemFinal r s = r) ∧
    (∀ res, redeem r s = Except.ok res →
       redeemFinal r s =
         { r with
             vault_token_account :=
               { r.vault_token_account with
                   amount := r.vault_token_account.amount - res.underlying_returned },
             share_mint :=
               { r.share_mint with supply := r.share_mint.supply - s },
             redeemer_underlying_account :=
               { r.redeemer_underlying_account with
                   amount := r.redeemer_underlying_account.amount +
                     res.underlying_returned },
             redeemer_share_account :=
               { r.redeemer_share_account with
                   amount := r.redeemer_share_account.amount - s } }) := by
  refine ⟨?_, ?_, ?_, ?_⟩
  · intro herr
    unfold depositFinal
    cases hd : deposit a amount with
    | ok res => rw [hd] at herr; simp [Except.isOk, Except.toBool] at herr
    | error e => rfl
  · intro res hd
    obtain ⟨-, -, -, -, -, -, -, -, hv, hdu, hm, hds⟩ := deposit_ok a amount res hd
    unfold depositFinal
    rw [hd, ← hv, ← hdu, ← hm, ← hds]
  · intro herr
    unfold redeemFinal
    cases hr : redeem r s with
    | ok res => rw [hr] at herr; simp [Except.isOk, Except.toBool] at herr
    | error e => rfl
  · intro res hr
    obtain ⟨-, -, -, -, -, -, -, -, -, hm, hds, hv, hru⟩ := redeem_ok r s res hr
    unfold redeemFinal
    rw [hr, ← hv, ← hru, ← hm, ← hds]

/-- C9 witness: at a concrete failing deposit (zero amount) and failing redeem
(zero shares) the final state equals the initial state, and at the concrete
successful calls the final state carries both paired effects. -/
theorem C9_witness :
    depositFinal c4NormalDep 0 = c4NormalDep ∧
    redeemFinal c4NormalRed 0 = c4NormalRed ∧
    depositFinal c4NormalDep 50 =
      { c4NormalDep with
          vault_token_account := { key := 3, mint := 2, owner := 100, amount := 250 },
          share_mint := { key := 1, supply := 125, decimals := 0 },
          depositor_underlying_account := { key := 5, mint := 2, owner := 7, amount := 950 },
          depositor_share_account := { key := 6, mint := 1, owner := 7, amount := 25 } } := by
  refine ⟨(C9_all_or_nothing c4NormalDep 0 c4NormalRed 0).1 (by rfl),
          (C9_all_or_nothing c4NormalDep 0 c4NormalRed 0).2.2.1 (by rfl),
          ?_⟩
  have h := (C9_all_or_nothing c4NormalDep 50 c4NormalRed 10).2.1 c4DepRes (by rfl)
  exact h

/-- C10: the MathOverflow branches of deposit and redeem are unreachable for
every in-range input: the 128-bit checked product of two u64 quantities always
fits, and each checked division is reached only under a guard that its divisor
is nonzero. -/
theorem C10_MathOverflow_unreachable (a : DepositAccounts) (amount : Nat)
    (r : RedeemAccounts) (s : Nat)
    (hwa : a.wf) (ham : amount < U64LIM) (hwr : r.wf) (hs : s < U64LIM) :
    deposit a amount ≠ Except.error (DepErr.program DepositError.MathOverflow) ∧
    redeem r s ≠ Except.error (RedErr.program RedeemError.MathOverflow) :=
  ⟨deposit_no_MathOverflow a amount hwa.1 ham,
   redeem_no_MathOverflow r s hwr.2.1 hs⟩

/-- C10 witness: the unreachability theorem evaluated at the concrete in-range
deposit and redeem states. -/
theorem C10_witness :
    deposit c4NormalDep 50 ≠ Except.error (DepErr.program DepositError.MathOverflow) ∧
    redeem c4NormalRed 10 ≠ Except.error (RedErr.program RedeemError.MathOverflow) :=
  C10_MathOverflow_unreachable c4NormalDep 50 c4NormalRed 10
    (by decide) (by decide) (by decide) (by decide)
